import Mathlib

/-!
Shallow embedding of the FinAPIU task/article lifecycle core
(src/src/task/routes.py, src/src/article/routes.py, src/src/db/models.py).

Modelling conventions:
* Timestamps are integers (`Time := Int`); `datetime.utcnow()` becomes an
  explicit `now` argument, and `isoformat()` of a timestamp is modelled as
  the same integer.
* The blob store is external (spec section 6): uploaded files are modelled
  as the list of reference strings that `save_uploaded_file` returns.
* `HTTPException` becomes the inductive `Err`; the blanket
  `except Exception: rollback; raise HTTPException(500, ...)` wrappers of
  the Python handlers are modelled by `wrap_err`, which converts every
  error raised inside the `try` block (including the handler's own
  `HTTPException(404/403)`) into an internal-server error that carries the
  original error in its message.
* `created_at` / `updated_at` / `changed_at` server-side columns are not
  modelled: no claim depends on them.
-/

namespace FinAPIU

abbrev Time := Int

/-- Modelled from the spec: src/src/task/enums.py is not under src/. The
routes and the spec mention the statuses ACTIVE and COMPLETED and the
priorities LOW, MEDIUM, HIGH; `value` is the enum's string value used in
history payloads. -/
inductive TaskStatus where
  | active
  | completed
deriving DecidableEq, Repr

def TaskStatus.value : TaskStatus → String
  | .active => "active"
  | .completed => "completed"

/-- Modelled from the spec: src/src/task/enums.py is not under src/. -/
inductive TaskPriority where
  | low
  | medium
  | high
deriving DecidableEq, Repr

def TaskPriority.value : TaskPriority → String
  | .low => "low"
  | .medium => "medium"
  | .high => "high"

/-- A JSON value as stored in the `changes` JSON column of task history. -/
inductive JVal where
  | jnull
  | jstr (s : String)
  | jint (n : Int)
  | jstrs (l : List String)
  | joldnew (o n : Int)
deriving DecidableEq, Repr

def optJ : Option String → JVal
  | some s => .jstr s
  | none => .jnull

def optJT : Option Time → JVal
  | some t => .jint t
  | none => .jnull

/-- Users table (src/src/db/models.py, class User); only the columns the
lifecycle routes read. -/
structure User where
  user_id : Int
  role_id : Int
  is_deleted : Bool
deriving DecidableEq, Repr

/-- Tasks table (src/src/db/models.py, class Task). -/
structure Task where
  id : Int
  title : String
  description : Option String
  status : TaskStatus
  priority : TaskPriority
  due_date : Option Time
  author_id : Int
  assignee_id : Int
  image_paths : List String
  is_deleted : Bool
  deleted_at : Option Time
deriving DecidableEq, Repr

/-- Task history table (src/src/db/models.py, class TaskHistory); `changes`
is the JSON payload as an association list. -/
structure TaskHistory where
  task_id : Int
  user_id : Int
  event : String
  comment : Option String
  changes : List (String × JVal)
deriving DecidableEq, Repr

/-- Articles table (src/src/db/models.py, class Article). -/
structure Article where
  id : Int
  title : String
  content : String
  author_id : Int
  is_deleted : Bool
  deleted_at : Option Time
deriving DecidableEq, Repr

/-- Article images table (src/src/db/models.py, class ArticleImage). -/
structure ArticleImage where
  article_id : Int
  image_path : String
deriving DecidableEq, Repr

/-- Article history table (src/src/db/models.py, class ArticleHistory). -/
structure ArticleHistory where
  article_id : Int
  user_id : Int
  event : String
  old_title : Option String
  new_title : Option String
  old_content : Option String
  new_content : Option String
deriving DecidableEq, Repr

/-- The backing store: one list per table. -/
structure DB where
  users : List User
  tasks : List Task
  task_history : List TaskHistory
  articles : List Article
  article_images : List ArticleImage
  article_history : List ArticleHistory
deriving DecidableEq, Repr

/-- Errors raised by the handlers. `internal e` is the HTTP 500 that the
blanket `except Exception` re-raise produces; it carries the original
error (whose message the Python code embeds into the 500 detail string). -/
inductive Err where
  | notFound
  | forbidden
  | badRequest
  | internal (e : Err)
deriving DecidableEq, Repr

def ADMIN_ROLE_ID : Int := 2

def seven_days : Time := 7 * 24 * 60 * 60

/-- The restore query condition `deleted_at >= now - timedelta(days=7)`
(SQL comparison with NULL is not satisfied). -/
def within_window (deleted_at : Option Time) (now : Time) : Bool :=
  match deleted_at with
  | some d => decide (d ≥ now - seven_days)
  | none => false

/-- Modelled from the spec: the transactional session (src/src/db/database.py,
`get_db`, `db.commit` / `db.rollback`) is not under src/. Per spec sections
5 and 7 every request is one atomic transaction: an error aborts it and the
store is left exactly as before the request. -/
def run_tx (h : DB → Except Err DB) (db : DB) : DB × Option Err :=
  match h db with
  | .ok db' => (db', none)
  | .error e => (db, some e)

/-- The blanket `try ... except Exception as e: await db.rollback();
raise HTTPException(500, ...)` wrapper used by most handlers. -/
def wrap_err (r : Except Err DB) : Except Err DB :=
  match r with
  | .ok db => .ok db
  | .error e => .error (.internal e)

def ok_db : Except Err DB → Option DB
  | .ok db => some db
  | .error _ => none

def is_ok (r : Except Err DB) : Bool :=
  (ok_db r).isSome

def set_task (db : DB) (t : Task) : DB :=
  { db with tasks := db.tasks.map (fun u => if u.id == t.id then t else u) }

def set_article (db : DB) (a : Article) : DB :=
  { db with articles := db.articles.map (fun u => if u.id == a.id then a else u) }

/-- src/src/task/routes.py `verify_assignee`: the assignee must exist and
not be soft-deleted. -/
def verify_assignee (db : DB) (assignee_id : Int) : Option User :=
  db.users.find? (fun u => u.user_id == assignee_id && u.is_deleted == false)

def fresh_task_id (db : DB) : Int :=
  (db.tasks.map Task.id).foldl max 0 + 1

def fresh_article_id (db : DB) : Int :=
  (db.articles.map Article.id).foldl max 0 + 1

/-- One IMAGE_ADDED task-history record per uploaded file, in upload order
(src/src/task/routes.py lines 75-83 and 143-151). -/
def task_image_records (tid uid : Int) (images : List String) : List TaskHistory :=
  images.map (fun fn =>
    { task_id := tid, user_id := uid, event := "IMAGE_ADDED",
      comment := none, changes := [("image_path", JVal.jstr fn)] })

/-- The multipart form of PUT /tasks/{task_id}. -/
structure UpdateTaskForm where
  title : Option String
  description : Option String
  assignee_id : Option Int
  due_date : Option Time
  status : Option TaskStatus
  priority : Option TaskPriority
  images : List String
deriving DecidableEq, Repr

/-- Python interleaves the `verify_assignee` existence check with the field
assignments; since nothing is persisted before commit and any error rolls
the session back, hoisting the check ahead of the assignments is
observationally equivalent. -/
def assignee_check (db : DB) (o : Option Int) : Except Err Unit :=
  match o with
  | none => .ok ()
  | some a =>
    match verify_assignee db a with
    | some _ => .ok ()
    | none => .error .notFound

/-- Field assignments of update_task (src/src/task/routes.py lines 126-152):
each supplied form field overwrites the column; uploaded files are appended
to `image_paths`. -/
def apply_task_fields (task : Task) (f : UpdateTaskForm) : Task :=
  let task := match f.title with
    | some v => { task with title := v }
    | none => task
  let task := match f.description with
    | some v => { task with description := some v }
    | none => task
  let task := match f.assignee_id with
    | some v => { task with assignee_id := v }
    | none => task
  let task := match f.due_date with
    | some v => { task with due_date := some v }
    | none => task
  let task := match f.status with
    | some v => { task with status := v }
    | none => task
  let task := match f.priority with
    | some v => { task with priority := v }
    | none => task
  if f.images.isEmpty then task
  else { task with image_paths := task.image_paths ++ f.images }

/-- The `changes` dict of update_task (src/src/task/routes.py lines
154-168): every supplied field is recorded with its new value, whether or
not it differs from the stored one; if files were uploaded the full new
image list is recorded as well. -/
def task_update_changes (f : UpdateTaskForm) (new_image_paths : List String) :
    List (String × JVal) :=
  (match f.title with | some v => [("title", JVal.jstr v)] | none => [])
  ++ (match f.description with | some v => [("description", JVal.jstr v)] | none => [])
  ++ (match f.assignee_id with | some v => [("assignee_id", JVal.jint v)] | none => [])
  ++ (match f.due_date with | some v => [("due_date", JVal.jint v)] | none => [])
  ++ (match f.status with | some v => [("status", JVal.jstr v.value)] | none => [])
  ++ (match f.priority with | some v => [("priority", JVal.jstr v.value)] | none => [])
  ++ (if f.images.isEmpty then [] else [("image_paths", JVal.jstrs new_image_paths)])

/-- PUT /tasks/{task_id} (src/src/task/routes.py `update_task`). The fetch
does not filter on `is_deleted`, there is no ownership/role check, and the
handler has no try/except wrapper. -/
def update_task (db : DB) (cu : User) (tid : Int) (f : UpdateTaskForm) :
    Except Err DB :=
  match db.tasks.find? (fun t => t.id == tid) with
  | none => .error .notFound
  | some task =>
    match assignee_check db f.assignee_id with
    | .error e => .error e
    | .ok _ =>
      let task' := apply_task_fields task f
      let img_hist := task_image_records task'.id cu.user_id f.images
      let changes := task_update_changes f task'.image_paths
      let upd_hist : List TaskHistory :=
        if changes.isEmpty then []
        else [{ task_id := task'.id, user_id := cu.user_id,
                event := "TASK_UPDATED", comment := none, changes := changes }]
      let db1 := set_task db task'
      .ok { db1 with task_history := db.task_history ++ img_hist ++ upd_hist }

/-- The multipart form of POST /tasks/. -/
structure CreateTaskForm where
  title : String
  description : Option String
  assignee_id : Int
  due_date : Option Time
  status : TaskStatus
  priority : TaskPriority
  images : List String
deriving DecidableEq, Repr

/-- Body of create_task (src/src/task/routes.py lines 55-99). The
TASK_CREATED payload is a copy of `task_data` taken before images were
attached, so its `image_paths` entry is always the empty list. -/
def create_task_body (db : DB) (cu : User) (f : CreateTaskForm) :
    Except Err DB :=
  match verify_assignee db f.assignee_id with
  | none => .error .notFound
  | some _ =>
    let tid := fresh_task_id db
    let task : Task :=
      { id := tid, title := f.title, description := f.description,
        status := f.status, priority := f.priority, due_date := f.due_date,
        author_id := cu.user_id, assignee_id := f.assignee_id,
        image_paths := f.images, is_deleted := false, deleted_at := none }
    let img_hist := task_image_records tid cu.user_id f.images
    let created : TaskHistory :=
      { task_id := tid, user_id := cu.user_id, event := "TASK_CREATED",
        comment := none,
        changes := [("title", JVal.jstr f.title),
                    ("description", optJ f.description),
                    ("assignee_id", JVal.jint f.assignee_id),
                    ("due_date", optJT f.due_date),
                    ("author_id", JVal.jint cu.user_id),
                    ("status", JVal.jstr f.status.value),
                    ("priority", JVal.jstr f.priority.value),
                    ("image_paths", JVal.jstrs [])] }
    .ok { db with tasks := db.tasks ++ [task],
                  task_history := db.task_history ++ img_hist ++ [created] }

/-- POST /tasks/ with its blanket except wrapper. -/
def create_task (db : DB) (cu : User) (f : CreateTaskForm) : Except Err DB :=
  wrap_err (create_task_body db cu f)

/-- Body of delete_task (src/src/task/routes.py lines 188-210). -/
def delete_task_body (db : DB) (cu : User) (tid : Int) (now : Time) :
    Except Err DB :=
  match db.tasks.find? (fun t => t.id == tid && t.is_deleted == false) with
  | none => .error .notFound
  | some task =>
    if cu.role_id != ADMIN_ROLE_ID && task.author_id != cu.user_id then
      .error .forbidden
    else
      let task' := { task with is_deleted := true, deleted_at := some now }
      let entry : TaskHistory :=
        { task_id := task.id, user_id := cu.user_id, event := "TASK_DELETED",
          comment := none,
          changes := [("title", JVal.jstr task.title),
                      ("description", optJ task.description)] }
      let db1 := set_task db task'
      .ok { db1 with task_history := db.task_history ++ [entry] }

/-- DELETE /tasks/{task_id} with its blanket except wrapper. -/
def delete_task (db : DB) (cu : User) (tid : Int) (now : Time) :
    Except Err DB :=
  wrap_err (delete_task_body db cu tid now)

/-- Body of restore_task (src/src/task/routes.py lines 341-368): the fetch
itself requires `is_deleted == True` and `deleted_at >= now - 7 days`, so
absent, not-deleted and window-expired tasks all fall into the same
not-found branch. -/
def restore_task_body (db : DB) (cu : User) (tid : Int) (now : Time) :
    Except Err DB :=
  match db.tasks.find? (fun t =>
      t.id == tid && t.is_deleted == true && within_window t.deleted_at now) with
  | none => .error .notFound
  | some task =>
    if cu.role_id != ADMIN_ROLE_ID && task.author_id != cu.user_id then
      .error .forbidden
    else
      let task' := { task with is_deleted := false, deleted_at := none }
      let entry : TaskHistory :=
        { task_id := task.id, user_id := cu.user_id, event := "TASK_RESTORED",
          comment := none,
          changes := [("title", JVal.jstr task.title),
                      ("description", optJ task.description)] }
      let db1 := set_task db task'
      .ok { db1 with task_history := db.task_history ++ [entry] }

/-- POST /tasks/{task_id}/restore with its blanket except wrapper. -/
def restore_task (db : DB) (cu : User) (tid : Int) (now : Time) :
    Except Err DB :=
  wrap_err (restore_task_body db cu tid now)

/-- PATCH /tasks/{task_id}/reassign (src/src/task/routes.py lines 290-333);
this handler has no try/except wrapper. -/
def reassign_task (db : DB) (cu : User) (tid new_assignee_id : Int)
    (comment : Option String) : Except Err DB :=
  match db.tasks.find? (fun t => t.id == tid && t.is_deleted == false) with
  | none => .error .notFound
  | some task =>
    if cu.role_id != ADMIN_ROLE_ID && task.author_id != cu.user_id then
      .error .forbidden
    else
      match verify_assignee db new_assignee_id with
      | none => .error .notFound
      | some _ =>
        let entry : TaskHistory :=
          { task_id := task.id, user_id := cu.user_id,
            event := "TASK_REASSIGNED", comment := comment,
            changes := [("assignee_id",
                         JVal.joldnew task.assignee_id new_assignee_id)] }
        let db1 := set_task db { task with assignee_id := new_assignee_id }
        .ok { db1 with task_history := db.task_history ++ [entry] }

/-- Body of create_article (src/src/article/routes.py lines 62-92): images
become ArticleImage rows (no history record per image); one CREATE history
record with the new title and content. -/
def create_article_body (db : DB) (cu : User) (title content : String)
    (images : List String) : Except Err DB :=
  let aid := fresh_article_id db
  let article : Article :=
    { id := aid, title := title, content := content,
      author_id := cu.user_id, is_deleted := false, deleted_at := none }
  let imgs := images.map (fun fn =>
    ({ article_id := aid, image_path := fn } : ArticleImage))
  let entry : ArticleHistory :=
    { article_id := aid, user_id := cu.user_id, event := "CREATE",
      old_title := none, new_title := some title,
      old_content := none, new_content := some content }
  .ok { db with articles := db.articles ++ [article],
                article_images := db.article_images ++ imgs,
                article_history := db.article_history ++ [entry] }

/-- POST /articles/ with its blanket except wrapper. -/
def create_article (db : DB) (cu : User) (title content : String)
    (images : List String) : Except Err DB :=
  wrap_err (create_article_body db cu title content images)

/-- The multipart form of PUT /articles/{article_id}. -/
structure UpdateArticleForm where
  title : Option String
  content : Option String
  images : List String
deriving DecidableEq, Repr

/-- The update_article condition `title is not None and title != article.title`
(src/src/article/routes.py lines 127 and 149-150). -/
def article_title_changed (f : UpdateArticleForm) (a : Article) : Bool :=
  match f.title with
  | some t => t != a.title
  | none => false

/-- The update_article condition `content is not None and content !=
article.content` (src/src/article/routes.py lines 130 and 151-152). -/
def article_content_changed (f : UpdateArticleForm) (a : Article) : Bool :=
  match f.content with
  | some c => c != a.content
  | none => false

/-- Field mutations of update_article (src/src/article/routes.py lines
127-132): a supplied field overwrites the column only when it differs. -/
def article_after_update (f : UpdateArticleForm) (a : Article) : Article :=
  { a with
    title := if article_title_changed f a then f.title.getD a.title else a.title,
    content := if article_content_changed f a then f.content.getD a.content else a.content }

/-- Body of update_article (src/src/article/routes.py lines 110-158): the
fetch filters out soft-deleted articles; only the author or role 2 may
proceed; a field is committed and recorded only when it is supplied and
differs from the stored value; images become ArticleImage rows and set
`changes_made`, so an images-only request still appends one UPDATE record
whose four diff columns are all null. -/
def update_article_body (db : DB) (cu : User) (aid : Int)
    (f : UpdateArticleForm) : Except Err DB :=
  match db.articles.find? (fun a => a.id == aid && a.is_deleted == false) with
  | none => .error .notFound
  | some article =>
    if article.author_id != cu.user_id && cu.role_id != ADMIN_ROLE_ID then
      .error .forbidden
    else
      let old_title := article.title
      let old_content := article.content
      let title_changed := article_title_changed f article
      let content_changed := article_content_changed f article
      let article' := article_after_update f article
      let changes_made := title_changed || content_changed || !f.images.isEmpty
      let imgs := f.images.map (fun fn =>
        ({ article_id := article'.id, image_path := fn } : ArticleImage))
      let hist : List ArticleHistory :=
        if changes_made then
          [{ article_id := article'.id, user_id := cu.user_id, event := "UPDATE",
             old_title := if title_changed then some old_title else none,
             new_title := if title_changed then f.title else none,
             old_content := if content_changed then some old_content else none,
             new_content := if content_changed then f.content else none }]
        else []
      let db1 := set_article db article'
      .ok { db1 with article_images := db.article_images ++ imgs,
                     article_history := db.article_history ++ hist }

/-- PUT /articles/{article_id} with its blanket except wrapper. -/
def update_article (db : DB) (cu : User) (aid : Int) (f : UpdateArticleForm) :
    Except Err DB :=
  wrap_err (update_article_body db cu aid f)

/-- Body of delete_article (src/src/article/routes.py lines 173-199). -/
def delete_article_body (db : DB) (cu : User) (aid : Int) (now : Time) :
    Except Err DB :=
  match db.articles.find? (fun a => a.id == aid && a.is_deleted == false) with
  | none => .error .notFound
  | some article =>
    if article.author_id != cu.user_id && cu.role_id != ADMIN_ROLE_ID then
      .error .forbidden
    else
      let article' := { article with is_deleted := true, deleted_at := some now }
      let entry : ArticleHistory :=
        { article_id := article.id, user_id := cu.user_id, event := "DELETE",
          old_title := some article.title, new_title := none,
          old_content := some article.content, new_content := none }
      let db1 := set_article db article'
      .ok { db1 with article_history := db.article_history ++ [entry] }

/-- DELETE /articles/{article_id} with its blanket except wrapper. -/
def delete_article (db : DB) (cu : User) (aid : Int) (now : Time) :
    Except Err DB :=
  wrap_err (delete_article_body db cu aid now)

/-- Body of restore_article (src/src/article/routes.py lines 214-248): the
fetch requires `is_deleted == True` and `deleted_at >= now - 7 days`, so
absent, not-deleted and window-expired articles share one not-found branch. -/
def restore_article_body (db : DB) (cu : User) (aid : Int) (now : Time) :
    Except Err DB :=
  match db.articles.find? (fun a =>
      a.id == aid && a.is_deleted == true && within_window a.deleted_at now) with
  | none => .error .notFound
  | some article =>
    if article.author_id != cu.user_id && cu.role_id != ADMIN_ROLE_ID then
      .error .forbidden
    else
      let article' := { article with is_deleted := false, deleted_at := none }
      let entry : ArticleHistory :=
        { article_id := article.id, user_id := cu.user_id, event := "RESTORE",
          old_title := none, new_title := some article.title,
          old_content := none, new_content := some article.content }
      let db1 := set_article db article'
      .ok { db1 with article_history := db.article_history ++ [entry] }

/-- POST /articles/{article_id}/restore with its blanket except wrapper. -/
def restore_article (db : DB) (cu : User) (aid : Int) (now : Time) :
    Except Err DB :=
  wrap_err (restore_article_body db cu aid now)

/-- History records of one task. -/
def task_hist_count (db : DB) (tid : Int) : Nat :=
  (db.task_history.filter (fun h => h.task_id == tid)).length

/-- History records of one article. -/
def article_hist_count (db : DB) (aid : Int) : Nat :=
  (db.article_history.filter (fun h => h.article_id == aid)).length

/-- Task-history records carrying a given event tag. -/
def count_task_event (db : DB) (ev : String) : Nat :=
  (db.task_history.filter (fun h => h.event == ev)).length

/-- Article-history records carrying a given event tag. -/
def count_article_event (db : DB) (ev : String) : Nat :=
  (db.article_history.filter (fun h => h.event == ev)).length

/-- Title of a task as a reader of the store sees it. -/
def task_title_in (db : DB) (tid : Int) : Option String :=
  (db.tasks.find? (fun t => t.id == tid)).map Task.title

/-- Test fixtures: three users (author, admin, unrelated), an active task,
a soft-deleted task, a task with a description, an active article and a
soft-deleted article. -/
def u_owner : User := ⟨1, 1, false⟩

def u_admin : User := ⟨2, 2, false⟩

def u_other : User := ⟨3, 1, false⟩

def t_fix : Task := ⟨10, "Fix pump", none, .active, .medium, none, 1, 1, [], false, none⟩

def t_del : Task := ⟨11, "Old task", none, .active, .medium, none, 1, 1, [], true, some 0⟩

def t_desc : Task := ⟨12, "Report", some "Keep", .active, .medium, none, 1, 1, [], false, none⟩

def a_fix : Article := ⟨5, "Guide", "Body", 1, false, none⟩

def a_del : Article := ⟨6, "Gone", "Old body", 1, true, some 0⟩

def db_fix : DB := ⟨[u_owner, u_admin, u_other], [t_fix, t_del, t_desc], [], [a_fix, a_del], [], []⟩

def none_form : UpdateTaskForm := ⟨none, none, none, none, none, none, []⟩

theorem run_tx_err_unchanged (h : DB → Except Err DB) (db : DB)
    (he : (run_tx h db).2.isSome = true) : (run_tx h db).1 = db := by
  unfold run_tx at he ⊢
  cases hh : h db <;> simp [hh] at he ⊢

theorem run_tx_fst_ok (h : DB → Except Err DB) (db d : DB)
    (hh : h db = .ok d) : (run_tx h db).1 = d := by
  unfold run_tx
  rw [hh]

theorem run_tx_fst_err (h : DB → Except Err DB) (db : DB) (e : Err)
    (hh : h db = .error e) : (run_tx h db).1 = db := by
  unfold run_tx
  rw [hh]

theorem wrap_err_ok_iff (r : Except Err DB) (d : DB) :
    wrap_err r = .ok d ↔ r = .ok d := by
  cases r <;> simp [wrap_err]

theorem ok_db_wrap (r : Except Err DB) : ok_db (wrap_err r) = ok_db r := by
  cases r <;> rfl

theorem apply_task_fields_const (t : Task) (f : UpdateTaskForm) :
    (apply_task_fields t f).id = t.id ∧
    (apply_task_fields t f).author_id = t.author_id ∧
    (apply_task_fields t f).is_deleted = t.is_deleted ∧
    (apply_task_fields t f).deleted_at = t.deleted_at := by
  rcases f with ⟨t1, d1, a1, dd1, s1, p1, im1⟩
  cases t1 <;> cases d1 <;> cases a1 <;> cases dd1 <;> cases s1 <;> cases p1 <;>
    cases im1 <;> simp [apply_task_fields]

theorem apply_task_fields_images (t : Task) (f : UpdateTaskForm) :
    (apply_task_fields t f).image_paths =
      if f.images.isEmpty then t.image_paths else t.image_paths ++ f.images := by
  rcases f with ⟨t1, d1, a1, dd1, s1, p1, im1⟩
  cases t1 <;> cases d1 <;> cases a1 <;> cases dd1 <;> cases s1 <;> cases p1 <;>
    cases im1 <;> simp [apply_task_fields]

/-- C1, counterexample: user 3 is neither the author of task 10 (author 1)
nor an admin, yet update_task commits the title change and appends history;
the claim's Forbidden failure does not happen for tasks. -/
theorem C1_counterexample :
    (u_other.user_id ≠ t_fix.author_id ∧ u_other.role_id ≠ ADMIN_ROLE_ID) ∧
    is_ok (update_task db_fix u_other 10
      ⟨some "Hacked", none, none, none, none, none, []⟩) = true ∧
    (ok_db (update_task db_fix u_other 10
      ⟨some "Hacked", none, none, none, none, none, []⟩)).map
        (fun d => task_title_in d 10) = some (some "Hacked") := by
  decide

/-- C1, amended: article update enforces the owner-or-elevated rule — any
other actor is rejected with the article untouched, the handler raising
Forbidden which the blanket except wrapper surfaces as an internal error
wrapping it — while task update performs no permission check at all: for
any authenticated actor an update of an existing task (here with no new
assignee) commits. -/
theorem C1_theorem :
    (∀ (db : DB) (cu : User) (aid : Int) (f : UpdateArticleForm) (a : Article),
      db.articles.find? (fun x => x.id == aid && x.is_deleted == false) = some a →
      a.author_id ≠ cu.user_id → cu.role_id ≠ ADMIN_ROLE_ID →
      update_article_body db cu aid f = .error .forbidden ∧
      update_article db cu aid f = .error (.internal .forbidden) ∧
      run_tx (fun d => update_article d cu aid f) db = (db, some (.internal .forbidden))) ∧
    (∀ (db : DB) (cu : User) (tid : Int) (f : UpdateTaskForm) (t : Task),
      db.tasks.find? (fun x => x.id == tid) = some t →
      f.assignee_id = none →
      is_ok (update_task db cu tid f) = true) := by
  constructor
  · intro db cu aid f a hfind hauth hrole
    have hcond : (a.author_id != cu.user_id && cu.role_id != ADMIN_ROLE_ID) = true := by
      simp [bne_iff_ne, hauth, hrole]
    have h1 : update_article_body db cu aid f = .error .forbidden := by
      unfold update_article_body
      rw [hfind]
      simp [hcond]
    refine ⟨h1, ?_, ?_⟩
    · unfold update_article
      rw [h1]
      rfl
    · simp only [run_tx, update_article, h1, wrap_err]
  · intro db cu tid f t hfind hassign
    have hchk : assignee_check db f.assignee_id = .ok () := by
      rw [hassign]
      rfl
    unfold update_task
    rw [hfind, hchk]
    rfl

/-- C1, witness for the amended theorem at the fixtures. -/
theorem C1_witness :
    update_article db_fix u_other 5 ⟨some "Zzz", none, []⟩ = .error (.internal .forbidden) ∧
    is_ok (update_task db_fix u_other 10 none_form) = true :=
  ⟨(C1_theorem.1 db_fix u_other 5 ⟨some "Zzz", none, []⟩ a_fix rfl (by decide) (by decide)).2.1,
   C1_theorem.2 db_fix u_other 10 none_form t_fix rfl rfl⟩

theorem update_article_body_nodiff_hist (db : DB) (cu : User) (aid : Int)
    (f : UpdateArticleForm) (d : DB) (himg : f.images = [])
    (hno : ∀ a, db.articles.find? (fun x => x.id == aid && x.is_deleted == false) = some a →
      (f.title = none ∨ f.title = some a.title) ∧
      (f.content = none ∨ f.content = some a.content))
    (hok : update_article_body db cu aid f = .ok d) :
    d.article_history = db.article_history := by
  unfold update_article_body at hok
  cases hfind : db.articles.find? (fun x => x.id == aid && x.is_deleted == false) with
  | none =>
    rw [hfind] at hok
    cases hok
  | some a =>
    rw [hfind] at hok
    obtain ⟨ht, hc⟩ := hno a hfind
    by_cases hperm : (a.author_id != cu.user_id && cu.role_id != ADMIN_ROLE_ID) = true
    · simp [hperm] at hok
    · rcases ht with h1 | h1 <;> rcases hc with h2 | h2 <;>
        simp [hperm, h1, h2, himg, article_title_changed,
          article_content_changed] at hok <;>
        simp [← hok]

/-- C2, counterexample: updating task 10 while supplying only its current
title ("Fix pump", so zero differing fields) still appends one
TASK_UPDATED record: history count goes from 0 to 1. -/
theorem C2_counterexample :
    t_fix.title = "Fix pump" ∧
    task_hist_count db_fix 10 = 0 ∧
    (ok_db (update_task db_fix u_owner 10
      ⟨some "Fix pump", none, none, none, none, none, []⟩)).map
        (fun d => task_hist_count d 10) = some 1 := by
  decide

/-- C2, amended: for article updates with no images, if every supplied
field equals the stored value the history is unchanged (whatever the
outcome); task update records every supplied field whether or not it
differs, so only a task update supplying no fields and no images leaves
the history unchanged. -/
theorem C2_theorem :
    (∀ (db : DB) (cu : User) (aid : Int) (f : UpdateArticleForm),
      f.images = [] →
      (∀ a, db.articles.find? (fun x => x.id == aid && x.is_deleted == false) = some a →
        (f.title = none ∨ f.title = some a.title) ∧
        (f.content = none ∨ f.content = some a.content)) →
      ((run_tx (fun d => update_article d cu aid f) db).1).article_history
        = db.article_history) ∧
    (∀ (db : DB) (cu : User) (tid : Int),
      ((run_tx (fun d => update_task d cu tid
          ⟨none, none, none, none, none, none, []⟩) db).1).task_history
        = db.task_history) := by
  constructor
  · intro db cu aid f himg hno
    cases hr : update_article db cu aid f with
    | error e =>
      rw [run_tx_fst_err _ _ _ hr]
    | ok d =>
      rw [run_tx_fst_ok _ _ _ hr]
      exact update_article_body_nodiff_hist db cu aid f d himg hno
        ((wrap_err_ok_iff _ _).1 hr)
  · intro db cu tid
    cases hr : update_task db cu tid ⟨none, none, none, none, none, none, []⟩ with
    | error e =>
      rw [run_tx_fst_err _ _ _ hr]
    | ok d =>
      rw [run_tx_fst_ok _ _ _ hr]
      unfold update_task at hr
      cases hfind : db.tasks.find? (fun x => x.id == tid) with
      | none =>
        rw [hfind] at hr
        cases hr
      | some t =>
        rw [hfind] at hr
        simp [assignee_check, task_update_changes, task_image_records] at hr
        simp [← hr]

/-- C2, witness for the amended theorem at the fixtures. -/
theorem C2_witness :
    ((run_tx (fun d => update_article d u_owner 5 ⟨some "Guide", none, []⟩)
        db_fix).1).article_history = db_fix.article_history ∧
    ((run_tx (fun d => update_task d u_owner 10
        ⟨none, none, none, none, none, none, []⟩) db_fix).1).task_history
      = db_fix.task_history :=
  ⟨C2_theorem.1 db_fix u_owner 5 ⟨some "Guide", none, []⟩ rfl
    (by
      intro a ha
      have h2 : db_fix.articles.find? (fun x => x.id == 5 && x.is_deleted == false)
          = some a_fix := rfl
      rw [h2] at ha
      have h3 : a = a_fix := (Option.some.inj ha).symm
      subst h3
      exact ⟨Or.inr rfl, Or.inl rfl⟩),
   C2_theorem.2 db_fix u_owner 10⟩

theorem article_after_update_const (f : UpdateArticleForm) (a : Article) :
    (article_after_update f a).id = a.id ∧
    (article_after_update f a).author_id = a.author_id ∧
    (article_after_update f a).is_deleted = a.is_deleted ∧
    (article_after_update f a).deleted_at = a.deleted_at := by
  exact ⟨rfl, rfl, rfl, rfl⟩

/-- The committed result of a task update with no new assignee: the match
chain of update_task reduced once the fetch and the assignee check are
fixed. -/
theorem update_task_ok_shape (db : DB) (cu : User) (tid : Int)
    (f : UpdateTaskForm) (t : Task)
    (hfind : db.tasks.find? (fun x => x.id == tid) = some t)
    (hassign : f.assignee_id = none) :
    update_task db cu tid f = .ok
      { set_task db (apply_task_fields t f) with
        task_history := db.task_history
          ++ task_image_records (apply_task_fields t f).id cu.user_id f.images
          ++ (if (task_update_changes f (apply_task_fields t f).image_paths).isEmpty
              then []
              else [{ task_id := (apply_task_fields t f).id, user_id := cu.user_id,
                      event := "TASK_UPDATED", comment := none,
                      changes := task_update_changes f (apply_task_fields t f).image_paths }]) } := by
  have hchk : assignee_check db f.assignee_id = .ok () := by
    rw [hassign]
    rfl
  unfold update_task
  rw [hfind, hchk]

/-- The committed result of an authorized article update with no images and
at least one differing supplied field: one UPDATE record holding exactly
the changed fields, old and new. -/
theorem update_article_body_diff_hist (db : DB) (cu : User) (aid : Int)
    (f : UpdateArticleForm) (a : Article)
    (hfind : db.articles.find? (fun x => x.id == aid && x.is_deleted == false) = some a)
    (hperm : a.author_id = cu.user_id ∨ cu.role_id = ADMIN_ROLE_ID)
    (himg : f.images = [])
    (hdiff : (article_title_changed f a || article_content_changed f a) = true) :
    (ok_db (update_article_body db cu aid f)).map DB.article_history =
      some (db.article_history ++
        [{ article_id := a.id, user_id := cu.user_id, event := "UPDATE",
           old_title := if article_title_changed f a then some a.title else none,
           new_title := if article_title_changed f a then f.title else none,
           old_content := if article_content_changed f a then some a.content else none,
           new_content := if article_content_changed f a then f.content else none }]) := by
  have hcond : (a.author_id != cu.user_id && cu.role_id != ADMIN_ROLE_ID) = false := by
    rcases hperm with h | h <;> simp [h]
  unfold update_article_body
  rw [hfind]
  simp [hcond, himg, hdiff, ok_db, (article_after_update_const f a).1]

/-- C3, counterexample: task 12 has description "Keep"; an update supplying
a new title and the unchanged description "Keep" appends one TASK_UPDATED
record whose changes include the supplied-but-unchanged description field,
contrary to the claim that no supplied-but-unchanged field is captured. -/
theorem C3_counterexample :
    t_desc.description = some "Keep" ∧
    (ok_db (update_task db_fix u_owner 12
      ⟨some "New", some "Keep", none, none, none, none, []⟩)).map DB.task_history =
      some [{ task_id := 12, user_id := 1, event := "TASK_UPDATED", comment := none,
              changes := [("title", JVal.jstr "New"),
                          ("description", JVal.jstr "Keep")] }] := by
  decide

/-- C3, amended: an update with at least one differing supplied field and
no images appends exactly one UPDATED record; for articles it captures
exactly the changed fields (old and new value each, null otherwise); for
tasks it captures every supplied field with its new value only, including
fields that were supplied but equal to the stored value. -/
theorem C3_theorem :
    (∀ (db : DB) (cu : User) (aid : Int) (f : UpdateArticleForm) (a : Article),
      db.articles.find? (fun x => x.id == aid && x.is_deleted == false) = some a →
      (a.author_id = cu.user_id ∨ cu.role_id = ADMIN_ROLE_ID) →
      f.images = [] →
      (article_title_changed f a || article_content_changed f a) = true →
      (ok_db (update_article db cu aid f)).map DB.article_history =
        some (db.article_history ++
          [{ article_id := a.id, user_id := cu.user_id, event := "UPDATE",
             old_title := if article_title_changed f a then some a.title else none,
             new_title := if article_title_changed f a then f.title else none,
             old_content := if article_content_changed f a then some a.content else none,
             new_content := if article_content_changed f a then f.content else none }])) ∧
    (∀ (db : DB) (cu : User) (tid : Int) (f : UpdateTaskForm) (t : Task),
      db.tasks.find? (fun x => x.id == tid) = some t →
      f.assignee_id = none →
      f.images = [] →
      (task_update_changes f (apply_task_fields t f).image_paths).isEmpty = false →
      (ok_db (update_task db cu tid f)).map DB.task_history =
        some (db.task_history ++
          [{ task_id := (apply_task_fields t f).id, user_id := cu.user_id,
              event := "TASK_UPDATED", comment := none,
              changes := task_update_changes f (apply_task_fields t f).image_paths }])) := by
  constructor
  · intro db cu aid f a hfind hperm himg hdiff
    rw [show update_article db cu aid f = wrap_err (update_article_body db cu aid f) from rfl,
      ok_db_wrap]
    exact update_article_body_diff_hist db cu aid f a hfind hperm himg hdiff
  · intro db cu tid f t hfind hassign himg hne
    rw [update_task_ok_shape db cu tid f t hfind hassign]
    simp [himg, hne, task_image_records]
    exact ⟨_, rfl, rfl⟩

/-- C3, witness for the amended theorem at the fixtures: a title change
plus a supplied-but-unchanged content for article 5, and a title change
plus a supplied-but-unchanged description for task 12. -/
theorem C3_witness :
    (ok_db (update_article db_fix u_owner 5 ⟨some "Guide 2", some "Body", []⟩)).map
        DB.article_history =
      some [{ article_id := 5, user_id := 1, event := "UPDATE",
              old_title := some "Guide", new_title := some "Guide 2",
              old_content := none, new_content := none }] ∧
    (ok_db (update_task db_fix u_owner 12
        ⟨some "New", some "Keep", none, none, none, none, []⟩)).map DB.task_history =
      some [{ task_id := 12, user_id := 1, event := "TASK_UPDATED", comment := none,
              changes := [("title", JVal.jstr "New"),
                          ("description", JVal.jstr "Keep")] }] := by
  constructor
  · have h := C3_theorem.1 db_fix u_owner 5 ⟨some "Guide 2", some "Body", []⟩ a_fix
      rfl (Or.inl rfl) rfl (by decide)
    simpa using h
  · have h := C3_theorem.2 db_fix u_owner 12
      ⟨some "New", some "Keep", none, none, none, none, []⟩ t_desc rfl rfl rfl (by decide)
    simpa using h

/-- Restoration eligibility of an article exactly as the spec states it:
some article with this id is soft-deleted and within the 7-day window. -/
def article_restorable (db : DB) (aid : Int) (now : Time) : Bool :=
  db.articles.any (fun x =>
    x.id == aid && x.is_deleted == true && within_window x.deleted_at now)

/-- Restoration eligibility of a task exactly as the spec states it. -/
def task_restorable (db : DB) (tid : Int) (now : Time) : Bool :=
  db.tasks.any (fun x =>
    x.id == tid && x.is_deleted == true && within_window x.deleted_at now)

theorem restore_article_ok_shape (db : DB) (cu : User) (aid : Int) (now : Time)
    (a : Article)
    (hfind : db.articles.find? (fun x =>
      x.id == aid && x.is_deleted == true && within_window x.deleted_at now) = some a)
    (hperm : a.author_id = cu.user_id ∨ cu.role_id = ADMIN_ROLE_ID) :
    restore_article db cu aid now = .ok
      { set_article db { a with is_deleted := false, deleted_at := none } with
        article_history := db.article_history ++
          [{ article_id := a.id, user_id := cu.user_id, event := "RESTORE",
             old_title := none, new_title := some a.title,
             old_content := none, new_content := some a.content }] } := by
  have hcond : (a.author_id != cu.user_id && cu.role_id != ADMIN_ROLE_ID) = false := by
    rcases hperm with h | h <;> simp [h]
  unfold restore_article restore_article_body
  rw [hfind]
  simp [hcond, wrap_err]

theorem restore_task_ok_shape (db : DB) (cu : User) (tid : Int) (now : Time)
    (t : Task)
    (hfind : db.tasks.find? (fun x =>
      x.id == tid && x.is_deleted == true && within_window x.deleted_at now) = some t)
    (hperm : t.author_id = cu.user_id ∨ cu.role_id = ADMIN_ROLE_ID) :
    restore_task db cu tid now = .ok
      { set_task db { t with is_deleted := false, deleted_at := none } with
        task_history := db.task_history ++
          [{ task_id := t.id, user_id := cu.user_id, event := "TASK_RESTORED",
             comment := none,
             changes := [("title", JVal.jstr t.title),
                         ("description", optJ t.description)] }] } := by
  have hcond : (cu.role_id != ADMIN_ROLE_ID && t.author_id != cu.user_id) = false := by
    rcases hperm with h | h <;> simp [h]
  unfold restore_task restore_task_body
  rw [hfind]
  simp [hcond, wrap_err]

theorem restore_article_none (db : DB) (cu : User) (aid : Int) (now : Time)
    (hnone : db.articles.find? (fun x =>
      x.id == aid && x.is_deleted == true && within_window x.deleted_at now) = none) :
    restore_article db cu aid now = .error (.internal .notFound) := by
  unfold restore_article restore_article_body
  rw [hnone]
  rfl

theorem restore_task_none (db : DB) (cu : User) (tid : Int) (now : Time)
    (hnone : db.tasks.find? (fun x =>
      x.id == tid && x.is_deleted == true && within_window x.deleted_at now) = none) :
    restore_task db cu tid now = .error (.internal .notFound) := by
  unfold restore_task restore_task_body
  rw [hnone]
  rfl

/-- C4: what restore actually does. For an actor authorized on every entity
with the requested id, restore succeeds exactly when the entity is
soft-deleted and within the 7-day window; whenever each entity with the id
is absent, not deleted, or past the window, both entity kinds fail with the
SAME error and the store is untouched — but that error is the blanket
wrapper's InternalError wrapping the handler's NotFound, not a plain
NotFound as the claim states (the code_bug); on success the deleted flag
and timestamp are cleared together and one RESTORED record is appended. -/
theorem C4_theorem :
    (∀ (db : DB) (cu : User) (aid : Int) (now : Time),
      (∀ a ∈ db.articles, a.id = aid →
        (a.author_id = cu.user_id ∨ cu.role_id = ADMIN_ROLE_ID)) →
      is_ok (restore_article db cu aid now) = article_restorable db aid now) ∧
    (∀ (db : DB) (cu : User) (aid : Int) (now : Time),
      (∀ a ∈ db.articles, a.id = aid →
        a.is_deleted = false ∨ within_window a.deleted_at now = false) →
      restore_article db cu aid now = .error (.internal .notFound) ∧
      run_tx (fun d => restore_article d cu aid now) db
        = (db, some (.internal .notFound))) ∧
    (∀ (db : DB) (cu : User) (aid : Int) (now : Time) (a : Article),
      db.articles.find? (fun x =>
        x.id == aid && x.is_deleted == true && within_window x.deleted_at now) = some a →
      (a.author_id = cu.user_id ∨ cu.role_id = ADMIN_ROLE_ID) →
      restore_article db cu aid now = .ok
        { set_article db { a with is_deleted := false, deleted_at := none } with
          article_history := db.article_history ++
            [{ article_id := a.id, user_id := cu.user_id, event := "RESTORE",
               old_title := none, new_title := some a.title,
               old_content := none, new_content := some a.content }] }) ∧
    (∀ (db : DB) (cu : User) (tid : Int) (now : Time),
      (∀ t ∈ db.tasks, t.id = tid →
        (t.author_id = cu.user_id ∨ cu.role_id = ADMIN_ROLE_ID)) →
      is_ok (restore_task db cu tid now) = task_restorable db tid now) ∧
    (∀ (db : DB) (cu : User) (tid : Int) (now : Time),
      (∀ t ∈ db.tasks, t.id = tid →
        t.is_deleted = false ∨ within_window t.deleted_at now = false) →
      restore_task db cu tid now = .error (.internal .notFound) ∧
      run_tx (fun d => restore_task d cu tid now) db
        = (db, some (.internal .notFound))) ∧
    (∀ (db : DB) (cu : User) (tid : Int) (now : Time) (t : Task),
      db.tasks.find? (fun x =>
        x.id == tid && x.is_deleted == true && within_window x.deleted_at now) = some t →
      (t.author_id = cu.user_id ∨ cu.role_id = ADMIN_ROLE_ID) →
      restore_task db cu tid now = .ok
        { set_task db { t with is_deleted := false, deleted_at := none } with
          task_history := db.task_history ++
            [{ task_id := t.id, user_id := cu.user_id, event := "TASK_RESTORED",
               comment := none,
               changes := [("title", JVal.jstr t.title),
                           ("description", optJ t.description)] }] }) := by
  refine ⟨?_, ?_, ?_, ?_, ?_, ?_⟩
  · intro db cu aid now hauth
    cases hfind : db.articles.find? (fun x =>
        x.id == aid && x.is_deleted == true && within_window x.deleted_at now) with
    | none =>
      rw [restore_article_none db cu aid now hfind]
      have : article_restorable db aid now = false := by
        unfold article_restorable
        rw [List.any_eq_false]
        exact List.find?_eq_none.mp hfind
      rw [this]
      rfl
    | some a =>
      have hmem := List.mem_of_find?_eq_some hfind
      have hpa := List.find?_some hfind
      have hid : a.id = aid := by
        simp at hpa
        exact hpa.1.1
      rw [restore_article_ok_shape db cu aid now a hfind (hauth a hmem hid)]
      have : article_restorable db aid now = true := by
        unfold article_restorable
        rw [List.any_eq_true]
        exact ⟨a, hmem, hpa⟩
      rw [this]
      rfl
  · intro db cu aid now hfail
    have hnone : db.articles.find? (fun x =>
        x.id == aid && x.is_deleted == true && within_window x.deleted_at now) = none := by
      rw [List.find?_eq_none]
      intro x hx hpx
      simp at hpx
      obtain ⟨⟨h1, h2⟩, h3⟩ := hpx
      rcases hfail x hx h1 with h | h
      · rw [h2] at h
        cases h
      · rw [h3] at h
        cases h
    have he := restore_article_none db cu aid now hnone
    exact ⟨he, by simp [run_tx, he]⟩
  · exact restore_article_ok_shape
  · intro db cu tid now hauth
    cases hfind : db.tasks.find? (fun x =>
        x.id == tid && x.is_deleted == true && within_window x.deleted_at now) with
    | none =>
      rw [restore_task_none db cu tid now hfind]
      have : task_restorable db tid now = false := by
        unfold task_restorable
        rw [List.any_eq_false]
        exact List.find?_eq_none.mp hfind
      rw [this]
      rfl
    | some t =>
      have hmem := List.mem_of_find?_eq_some hfind
      have hpt := List.find?_some hfind
      have hid : t.id = tid := by
        simp at hpt
        exact hpt.1.1
      rw [restore_task_ok_shape db cu tid now t hfind (hauth t hmem hid)]
      have : task_restorable db tid now = true := by
        unfold task_restorable
        rw [List.any_eq_true]
        exact ⟨t, hmem, hpt⟩
      rw [this]
      rfl
  · intro db cu tid now hfail
    have hnone : db.tasks.find? (fun x =>
        x.id == tid && x.is_deleted == true && within_window x.deleted_at now) = none := by
      rw [List.find?_eq_none]
      intro x hx hpx
      simp at hpx
      obtain ⟨⟨h1, h2⟩, h3⟩ := hpx
      rcases hfail x hx h1 with h | h
      · rw [h2] at h
        cases h
      · rw [h3] at h
        cases h
    have he := restore_task_none db cu tid now hnone
    exact ⟨he, by simp [run_tx, he]⟩
  · exact restore_task_ok_shape

/-- C4, witness: article 6 and task 11 were soft-deleted at time 0, so at
time 100 restore succeeds for the owner, while article 5 (not deleted) and
time 10_000_000 (window expired for article 6) fail with the identical
wrapped NotFound. -/
theorem C4_witness :
    is_ok (restore_article db_fix u_owner 6 100) = article_restorable db_fix 6 100 ∧
    restore_article db_fix u_owner 5 100 = .error (.internal .notFound) ∧
    restore_article db_fix u_owner 6 10000000 = .error (.internal .notFound) ∧
    is_ok (restore_task db_fix u_owner 11 100) = task_restorable db_fix 11 100 ∧
    restore_task db_fix u_owner 11 10000000 = .error (.internal .notFound) :=
  ⟨(C4_theorem.1 db_fix u_owner 6 100 (by decide)),
   (C4_theorem.2.1 db_fix u_owner 5 100 (by decide)).1,
   (C4_theorem.2.1 db_fix u_owner 6 10000000 (by decide)).1,
   (C4_theorem.2.2.2.1 db_fix u_owner 11 100 (by decide)),
   (C4_theorem.2.2.2.2.1 db_fix u_owner 11 10000000 (by decide)).1⟩

/-- The task soft-delete invariant: the flag is set exactly when the
timestamp is present. -/
def task_inv (t : Task) : Bool :=
  t.is_deleted == t.deleted_at.isSome

/-- The article soft-delete invariant. -/
def article_inv (a : Article) : Bool :=
  a.is_deleted == a.deleted_at.isSome

/-- The store-wide soft-delete invariant. -/
def db_inv (db : DB) : Bool :=
  db.tasks.all task_inv && db.articles.all article_inv

/-- The invariant evaluated on the committed state; an aborted request
keeps the old state, so there is nothing to check. -/
def inv_after (r : Except Err DB) : Bool :=
  match ok_db r with
  | some d => db_inv d
  | none => true

theorem db_inv_split (db : DB) :
    db_inv db = true ↔ db.tasks.all task_inv = true ∧ db.articles.all article_inv = true := by
  simp [db_inv]

theorem inv_after_wrap (r : Except Err DB) : inv_after (wrap_err r) = inv_after r := by
  cases r <;> rfl

theorem all_set_task (db : DB) (t' : Task)
    (h : db.tasks.all task_inv = true) (ht : task_inv t' = true) :
    ((set_task db t').tasks).all task_inv = true := by
  simp only [set_task]
  rw [List.all_map, List.all_eq_true]
  intro y hy
  by_cases hid : (y.id == t'.id) = true <;>
    simp [Function.comp, hid]
  · exact ht
  · exact List.all_eq_true.mp h y hy

theorem all_set_article (db : DB) (a' : Article)
    (h : db.articles.all article_inv = true) (ha : article_inv a' = true) :
    ((set_article db a').articles).all article_inv = true := by
  simp only [set_article]
  rw [List.all_map, List.all_eq_true]
  intro y hy
  by_cases hid : (y.id == a'.id) = true <;>
    simp [Function.comp, hid]
  · exact ha
  · exact List.all_eq_true.mp h y hy

theorem create_task_inv (db : DB) (cu : User) (f : CreateTaskForm)
    (h : db_inv db = true) : inv_after (create_task db cu f) = true := by
  rw [show create_task db cu f = wrap_err (create_task_body db cu f) from rfl,
    inv_after_wrap]
  unfold create_task_body
  cases hv : verify_assignee db f.assignee_id with
  | none => rfl
  | some u =>
    rcases (db_inv_split db).mp h with ⟨h1, h2⟩
    simp only [inv_after, ok_db]
    apply (db_inv_split _).mpr
    refine ⟨?_, h2⟩
    rw [List.all_append]
    simp [h1, task_inv]

theorem update_task_inv (db : DB) (cu : User) (tid : Int) (f : UpdateTaskForm)
    (h : db_inv db = true) : inv_after (update_task db cu tid f) = true := by
  unfold update_task
  cases hfind : db.tasks.find? (fun x => x.id == tid) with
  | none => rfl
  | some t =>
    cases hchk : assignee_check db f.assignee_id with
    | error e => rfl
    | ok u =>
      rcases (db_inv_split db).mp h with ⟨h1, h2⟩
      have hmem := List.mem_of_find?_eq_some hfind
      have htinv : task_inv (apply_task_fields t f) = true := by
        have ht := List.all_eq_true.mp h1 t hmem
        have hc := apply_task_fields_const t f
        unfold task_inv at ht ⊢
        rw [hc.2.2.1, hc.2.2.2]
        exact ht
      simp only [inv_after, ok_db]
      apply (db_inv_split _).mpr
      exact ⟨all_set_task db _ h1 htinv, h2⟩

theorem delete_task_inv (db : DB) (cu : User) (tid : Int) (now : Time)
    (h : db_inv db = true) : inv_after (delete_task db cu tid now) = true := by
  rw [show delete_task db cu tid now = wrap_err (delete_task_body db cu tid now) from rfl,
    inv_after_wrap]
  unfold delete_task_body
  cases hfind : db.tasks.find? (fun x => x.id == tid && x.is_deleted == false) with
  | none => rfl
  | some t =>
    rcases (db_inv_split db).mp h with ⟨h1, h2⟩
    by_cases hc : (cu.role_id != ADMIN_ROLE_ID && t.author_id != cu.user_id) = true
    · simp [hc, inv_after, ok_db]
    · simp only [hc, if_false, Bool.false_eq_true, if_neg, inv_after, ok_db]
      apply (db_inv_split _).mpr
      exact ⟨all_set_task db _ h1 rfl, h2⟩

theorem restore_task_inv (db : DB) (cu : User) (tid : Int) (now : Time)
    (h : db_inv db = true) : inv_after (restore_task db cu tid now) = true := by
  rw [show restore_task db cu tid now = wrap_err (restore_task_body db cu tid now) from rfl,
    inv_after_wrap]
  unfold restore_task_body
  cases hfind : db.tasks.find? (fun x =>
      x.id == tid && x.is_deleted == true && within_window x.deleted_at now) with
  | none => rfl
  | some t =>
    rcases (db_inv_split db).mp h with ⟨h1, h2⟩
    by_cases hc : (cu.role_id != ADMIN_ROLE_ID && t.author_id != cu.user_id) = true
    · simp [hc, inv_after, ok_db]
    · simp only [hc, if_false, Bool.false_eq_true, if_neg, inv_after, ok_db]
      apply (db_inv_split _).mpr
      exact ⟨all_set_task db _ h1 rfl, h2⟩

theorem reassign_task_inv (db : DB) (cu : User) (tid new_assignee_id : Int)
    (comment : Option String) (h : db_inv db = true) :
    inv_after (reassign_task db cu tid new_assignee_id comment) = true := by
  unfold reassign_task
  cases hfind : db.tasks.find? (fun x => x.id == tid && x.is_deleted == false) with
  | none => rfl
  | some t =>
    rcases (db_inv_split db).mp h with ⟨h1, h2⟩
    have hmem := List.mem_of_find?_eq_some hfind
    have ht := List.all_eq_true.mp h1 t hmem
    by_cases hc : (cu.role_id != ADMIN_ROLE_ID && t.author_id != cu.user_id) = true
    · simp [hc, inv_after, ok_db]
    · simp only [hc, if_false, Bool.false_eq_true, if_neg]
      cases hv : verify_assignee db new_assignee_id with
      | none => rfl
      | some u =>
        simp only [inv_after, ok_db]
        apply (db_inv_split _).mpr
        exact ⟨all_set_task db _ h1 ht, h2⟩

theorem create_article_inv (db : DB) (cu : User) (title content : String)
    (images : List String) (h : db_inv db = true) :
    inv_after (create_article db cu title content images) = true := by
  rw [show create_article db cu title content images
      = wrap_err (create_article_body db cu title content images) from rfl,
    inv_after_wrap]
  rcases (db_inv_split db).mp h with ⟨h1, h2⟩
  simp only [create_article_body, inv_after, ok_db]
  apply (db_inv_split _).mpr
  refine ⟨h1, ?_⟩
  rw [List.all_append]
  simp [h2, article_inv]

theorem update_article_inv (db : DB) (cu : User) (aid : Int)
    (f : UpdateArticleForm) (h : db_inv db = true) :
    inv_after (update_article db cu aid f) = true := by
  rw [show update_article db cu aid f = wrap_err (update_article_body db cu aid f) from rfl,
    inv_after_wrap]
  unfold update_article_body
  cases hfind : db.articles.find? (fun x => x.id == aid && x.is_deleted == false) with
  | none => rfl
  | some a =>
    rcases (db_inv_split db).mp h with ⟨h1, h2⟩
    have hmem := List.mem_of_find?_eq_some hfind
    have hainv : article_inv (article_after_update f a) = true := by
      have ha := List.all_eq_true.mp h2 a hmem
      have hc := article_after_update_const f a
      unfold article_inv at ha ⊢
      rw [hc.2.2.1, hc.2.2.2]
      exact ha
    by_cases hc : (a.author_id != cu.user_id && cu.role_id != ADMIN_ROLE_ID) = true
    · simp [hc, inv_after, ok_db]
    · simp only [hc, if_false, Bool.false_eq_true, if_neg, inv_after, ok_db]
      apply (db_inv_split _).mpr
      exact ⟨h1, all_set_article db _ h2 hainv⟩

theorem delete_article_inv (db : DB) (cu : User) (aid : Int) (now : Time)
    (h : db_inv db = true) : inv_after (delete_article db cu aid now) = true := by
  rw [show delete_article db cu aid now = wrap_err (delete_article_body db cu aid now) from rfl,
    inv_after_wrap]
  unfold delete_article_body
  cases hfind : db.articles.find? (fun x => x.id == aid && x.is_deleted == false) with
  | none => rfl
  | some a =>
    rcases (db_inv_split db).mp h with ⟨h1, h2⟩
    by_cases hc : (a.author_id != cu.user_id && cu.role_id != ADMIN_ROLE_ID) = true
    · simp [hc, inv_after, ok_db]
    · simp only [hc, if_false, Bool.false_eq_true, if_neg, inv_after, ok_db]
      apply (db_inv_split _).mpr
      exact ⟨h1, all_set_article db _ h2 rfl⟩

theorem restore_article_inv (db : DB) (cu : User) (aid : Int) (now : Time)
    (h : db_inv db = true) : inv_after (restore_article db cu aid now) = true := by
  rw [show restore_article db cu aid now = wrap_err (restore_article_body db cu aid now) from rfl,
    inv_after_wrap]
  unfold restore_article_body
  cases hfind : db.articles.find? (fun x =>
      x.id == aid && x.is_deleted == true && within_window x.deleted_at now) with
  | none => rfl
  | some a =>
    rcases (db_inv_split db).mp h with ⟨h1, h2⟩
    by_cases hc : (a.author_id != cu.user_id && cu.role_id != ADMIN_ROLE_ID) = true
    · simp [hc, inv_after, ok_db]
    · simp only [hc, if_false, Bool.false_eq_true, if_neg, inv_after, ok_db]
      apply (db_inv_split _).mpr
      exact ⟨h1, all_set_article db _ h2 rfl⟩

/-- C5: the soft-delete invariant `is_deleted = true ↔ deleted_at present`
is preserved by every lifecycle operation of both entity kinds, and
creation initializes the flag to false and the timestamp to null. -/
theorem C5_theorem :
    ∀ (db : DB), db_inv db = true →
      (∀ (cu : User) (f : CreateTaskForm), inv_after (create_task db cu f) = true) ∧
      (∀ (cu : User) (tid : Int) (f : UpdateTaskForm),
        inv_after (update_task db cu tid f) = true) ∧
      (∀ (cu : User) (tid : Int) (now : Time),
        inv_after (delete_task db cu tid now) = true) ∧
      (∀ (cu : User) (tid : Int) (now : Time),
        inv_after (restore_task db cu tid now) = true) ∧
      (∀ (cu : User) (tid na : Int) (c : Option String),
        inv_after (reassign_task db cu tid na c) = true) ∧
      (∀ (cu : User) (title content : String) (images : List String),
        inv_after (create_article db cu title content images) = true) ∧
      (∀ (cu : User) (aid : Int) (f : UpdateArticleForm),
        inv_after (update_article db cu aid f) = true) ∧
      (∀ (cu : User) (aid : Int) (now : Time),
        inv_after (delete_article db cu aid now) = true) ∧
      (∀ (cu : User) (aid : Int) (now : Time),
        inv_after (restore_article db cu aid now) = true) ∧
      (∀ (cu : User) (f : CreateTaskForm) (u : User),
        verify_assignee db f.assignee_id = some u →
        (ok_db (create_task db cu f)).map
          (fun d => d.tasks.getLast?.map (fun t => (t.is_deleted, t.deleted_at)))
          = some (some (false, none))) ∧
      (∀ (cu : User) (title content : String) (images : List String),
        (ok_db (create_article db cu title content images)).map
          (fun d => d.articles.getLast?.map (fun a => (a.is_deleted, a.deleted_at)))
          = some (some (false, none))) := by
  intro db h
  refine ⟨fun cu f => create_task_inv db cu f h,
    fun cu tid f => update_task_inv db cu tid f h,
    fun cu tid now => delete_task_inv db cu tid now h,
    fun cu tid now => restore_task_inv db cu tid now h,
    fun cu tid na c => reassign_task_inv db cu tid na c h,
    fun cu t c i => create_article_inv db cu t c i h,
    fun cu aid f => update_article_inv db cu aid f h,
    fun cu aid now => delete_article_inv db cu aid now h,
    fun cu aid now => restore_article_inv db cu aid now h,
    ?_, ?_⟩
  · intro cu f u hv
    rw [show create_task db cu f = wrap_err (create_task_body db cu f) from rfl, ok_db_wrap]
    unfold create_task_body
    rw [hv]
    simp [ok_db, List.getLast?_concat]
  · intro cu title content images
    rw [show create_article db cu title content images
        = wrap_err (create_article_body db cu title content images) from rfl, ok_db_wrap]
    unfold create_article_body
    simp [ok_db, List.getLast?_concat]

/-- C5, witness at the fixtures: delete, restore and create all preserve or
establish the invariant (db_fix itself satisfies it). -/
theorem C5_witness :
    inv_after (delete_task db_fix u_owner 10 50) = true ∧
    inv_after (restore_article db_fix u_owner 6 100) = true ∧
    (ok_db (create_article db_fix u_owner "N" "B" [])).map
      (fun d => d.articles.getLast?.map (fun a => (a.is_deleted, a.deleted_at)))
      = some (some (false, none)) :=
  ⟨(C5_theorem db_fix (by decide)).2.2.1 u_owner 10 50,
   (C5_theorem db_fix (by decide)).2.2.2.2.2.2.2.2.1 u_owner 6 100,
   (C5_theorem db_fix (by decide)).2.2.2.2.2.2.2.2.2.2 u_owner "N" "B" []⟩

theorem delete_task_ok_shape (db : DB) (cu : User) (tid : Int) (now : Time)
    (t : Task)
    (hfind : db.tasks.find? (fun x => x.id == tid && x.is_deleted == false) = some t)
    (hperm : t.author_id = cu.user_id ∨ cu.role_id = ADMIN_ROLE_ID) :
    delete_task db cu tid now = .ok
      { set_task db { t with is_deleted := true, deleted_at := some now } with
        task_history := db.task_history ++
          [{ task_id := t.id, user_id := cu.user_id, event := "TASK_DELETED",
             comment := none,
             changes := [("title", JVal.jstr t.title),
                         ("description", optJ t.description)] }] } := by
  have hcond : (cu.role_id != ADMIN_ROLE_ID && t.author_id != cu.user_id) = false := by
    rcases hperm with h | h <;> simp [h]
  unfold delete_task delete_task_body
  rw [hfind]
  simp [hcond, wrap_err]

theorem delete_article_ok_shape (db : DB) (cu : User) (aid : Int) (now : Time)
    (a : Article)
    (hfind : db.articles.find? (fun x => x.id == aid && x.is_deleted == false) = some a)
    (hperm : a.author_id = cu.user_id ∨ cu.role_id = ADMIN_ROLE_ID) :
    delete_article db cu aid now = .ok
      { set_article db { a with is_deleted := true, deleted_at := some now } with
        article_history := db.article_history ++
          [{ article_id := a.id, user_id := cu.user_id, event := "DELETE",
             old_title := some a.title, new_title := none,
             old_content := some a.content, new_content := none }] } := by
  have hcond : (a.author_id != cu.user_id && cu.role_id != ADMIN_ROLE_ID) = false := by
    rcases hperm with h | h <;> simp [h]
  unfold delete_article delete_article_body
  rw [hfind]
  simp [hcond, wrap_err]

/-- C6: what delete actually does. If every stored entity with the
requested id is already soft-deleted (so also when the id is absent), both
delete handlers abort with the store untouched — but the surfaced error is
the blanket wrapper's InternalError wrapping the handler's NotFound, not a
plain NotFound as the claim states (the code_bug); for an entity that is
not deleted and an owner or admin actor, delete sets the flag and the
timestamp to now and appends exactly one DELETED record carrying the
title/description (title/content) snapshot. -/
theorem C6_theorem :
    (∀ (db : DB) (cu : User) (tid : Int) (now : Time),
      (∀ t ∈ db.tasks, t.id = tid → t.is_deleted = true) →
      delete_task db cu tid now = .error (.internal .notFound) ∧
      run_tx (fun d => delete_task d cu tid now) db = (db, some (.internal .notFound))) ∧
    (∀ (db : DB) (cu : User) (tid : Int) (now : Time) (t : Task),
      db.tasks.find? (fun x => x.id == tid && x.is_deleted == false) = some t →
      (t.author_id = cu.user_id ∨ cu.role_id = ADMIN_ROLE_ID) →
      delete_task db cu tid now = .ok
        { set_task db { t with is_deleted := true, deleted_at := some now } with
          task_history := db.task_history ++
            [{ task_id := t.id, user_id := cu.user_id, event := "TASK_DELETED",
               comment := none,
               changes := [("title", JVal.jstr t.title),
                           ("description", optJ t.description)] }] }) ∧
    (∀ (db : DB) (cu : User) (aid : Int) (now : Time),
      (∀ a ∈ db.articles, a.id = aid → a.is_deleted = true) →
      delete_article db cu aid now = .error (.internal .notFound) ∧
      run_tx (fun d => delete_article d cu aid now) db = (db, some (.internal .notFound))) ∧
    (∀ (db : DB) (cu : User) (aid : Int) (now : Time) (a : Article),
      db.articles.find? (fun x => x.id == aid && x.is_deleted == false) = some a →
      (a.author_id = cu.user_id ∨ cu.role_id = ADMIN_ROLE_ID) →
      delete_article db cu aid now = .ok
        { set_article db { a with is_deleted := true, deleted_at := some now } with
          article_history := db.article_history ++
            [{ article_id := a.id, user_id := cu.user_id, event := "DELETE",
               old_title := some a.title, new_title := none,
               old_content := some a.content, new_content := none }] }) := by
  refine ⟨?_, ?_, ?_, ?_⟩
  · intro db cu tid now hdel
    have hnone : db.tasks.find? (fun x => x.id == tid && x.is_deleted == false) = none := by
      rw [List.find?_eq_none]
      intro x hx hpx
      simp at hpx
      rw [hdel x hx hpx.1] at hpx
      cases hpx.2
    have he : delete_task db cu tid now = .error (.internal .notFound) := by
      unfold delete_task delete_task_body
      rw [hnone]
      rfl
    exact ⟨he, by simp [run_tx, he]⟩
  · exact delete_task_ok_shape
  · intro db cu aid now hdel
    have hnone : db.articles.find? (fun x => x.id == aid && x.is_deleted == false) = none := by
      rw [List.find?_eq_none]
      intro x hx hpx
      simp at hpx
      rw [hdel x hx hpx.1] at hpx
      cases hpx.2
    have he : delete_article db cu aid now = .error (.internal .notFound) := by
      unfold delete_article delete_article_body
      rw [hnone]
      rfl
    exact ⟨he, by simp [run_tx, he]⟩
  · exact delete_article_ok_shape

/-- C6, witness: deleting the already-deleted task 11 and article 6 gives
the identical wrapped NotFound with the store untouched; deleting the
active task 10 and article 5 as their owner commits the flag, timestamp
and one DELETED snapshot record. -/
theorem C6_witness :
    delete_task db_fix u_owner 11 50 = .error (.internal .notFound) ∧
    run_tx (fun d => delete_task d u_owner 11 50) db_fix
      = (db_fix, some (.internal .notFound)) ∧
    delete_task db_fix u_owner 10 50 = .ok
      { set_task db_fix { t_fix with is_deleted := true, deleted_at := some 50 } with
        task_history :=
          [{ task_id := 10, user_id := 1, event := "TASK_DELETED", comment := none,
             changes := [("title", JVal.jstr "Fix pump"),
                         ("description", optJ none)] }] } ∧
    delete_article db_fix u_owner 6 50 = .error (.internal .notFound) ∧
    delete_article db_fix u_owner 5 50 = .ok
      { set_article db_fix { a_fix with is_deleted := true, deleted_at := some 50 } with
        article_history :=
          [{ article_id := 5, user_id := 1, event := "DELETE",
             old_title := some "Guide", new_title := none,
             old_content := some "Body", new_content := none }] } := by
  have h1 := C6_theorem.1 db_fix u_owner 11 50 (by decide)
  have h2 := C6_theorem.2.1 db_fix u_owner 10 50 t_fix rfl (Or.inl rfl)
  have h3 := C6_theorem.2.2.1 db_fix u_owner 6 50 (by decide)
  have h4 := C6_theorem.2.2.2 db_fix u_owner 5 50 a_fix rfl (Or.inl rfl)
  exact ⟨h1.1, h1.2, h2, h3.1, h4⟩

/-- C7: every lifecycle request is all-or-nothing. Whenever a request ends
in an error, the committed store equals the store before the request — no
entity mutation and no history append survives; on success (shown for the
two delete handlers) the entity mutation and its paired history record are
committed together in the single final state. -/
theorem C7_theorem :
    (∀ (db : DB) (cu : User) (f : CreateTaskForm),
      (run_tx (fun d => create_task d cu f) db).2.isSome = true →
      (run_tx (fun d => create_task d cu f) db).1 = db) ∧
    (∀ (db : DB) (cu : User) (tid : Int) (f : UpdateTaskForm),
      (run_tx (fun d => update_task d cu tid f) db).2.isSome = true →
      (run_tx (fun d => update_task d cu tid f) db).1 = db) ∧
    (∀ (db : DB) (cu : User) (tid : Int) (now : Time),
      (run_tx (fun d => delete_task d cu tid now) db).2.isSome = true →
      (run_tx (fun d => delete_task d cu tid now) db).1 = db) ∧
    (∀ (db : DB) (cu : User) (tid : Int) (now : Time),
      (run_tx (fun d => restore_task d cu tid now) db).2.isSome = true →
      (run_tx (fun d => restore_task d cu tid now) db).1 = db) ∧
    (∀ (db : DB) (cu : User) (tid na : Int) (c : Option String),
      (run_tx (fun d => reassign_task d cu tid na c) db).2.isSome = true →
      (run_tx (fun d => reassign_task d cu tid na c) db).1 = db) ∧
    (∀ (db : DB) (cu : User) (title content : String) (images : List String),
      (run_tx (fun d => create_article d cu title content images) db).2.isSome = true →
      (run_tx (fun d => create_article d cu title content images) db).1 = db) ∧
    (∀ (db : DB) (cu : User) (aid : Int) (f : UpdateArticleForm),
      (run_tx (fun d => update_article d cu aid f) db).2.isSome = true →
      (run_tx (fun d => update_article d cu aid f) db).1 = db) ∧
    (∀ (db : DB) (cu : User) (aid : Int) (now : Time),
      (run_tx (fun d => delete_article d cu aid now) db).2.isSome = true →
      (run_tx (fun d => delete_article d cu aid now) db).1 = db) ∧
    (∀ (db : DB) (cu : User) (aid : Int) (now : Time),
      (run_tx (fun d => restore_article d cu aid now) db).2.isSome = true →
      (run_tx (fun d => restore_article d cu aid now) db).1 = db) ∧
    (∀ (db : DB) (cu : User) (tid : Int) (now : Time) (t : Task),
      db.tasks.find? (fun x => x.id == tid && x.is_deleted == false) = some t →
      (t.author_id = cu.user_id ∨ cu.role_id = ADMIN_ROLE_ID) →
      run_tx (fun d => delete_task d cu tid now) db =
        ({ set_task db { t with is_deleted := true, deleted_at := some now } with
           task_history := db.task_history ++
             [{ task_id := t.id, user_id := cu.user_id, event := "TASK_DELETED",
                comment := none,
                changes := [("title", JVal.jstr t.title),
                            ("description", optJ t.description)] }] }, none)) ∧
    (∀ (db : DB) (cu : User) (aid : Int) (now : Time) (a : Article),
      db.articles.find? (fun x => x.id == aid && x.is_deleted == false) = some a →
      (a.author_id = cu.user_id ∨ cu.role_id = ADMIN_ROLE_ID) →
      run_tx (fun d => delete_article d cu aid now) db =
        ({ set_article db { a with is_deleted := true, deleted_at := some now } with
           article_history := db.article_history ++
             [{ article_id := a.id, user_id := cu.user_id, event := "DELETE",
                old_title := some a.title, new_title := none,
                old_content := some a.content, new_content := none }] }, none)) := by
  refine ⟨fun db cu f => run_tx_err_unchanged _ db,
    fun db cu tid f => run_tx_err_unchanged _ db,
    fun db cu tid now => run_tx_err_unchanged _ db,
    fun db cu tid now => run_tx_err_unchanged _ db,
    fun db cu tid na c => run_tx_err_unchanged _ db,
    fun db cu t c i => run_tx_err_unchanged _ db,
    fun db cu aid f => run_tx_err_unchanged _ db,
    fun db cu aid now => run_tx_err_unchanged _ db,
    fun db cu aid now => run_tx_err_unchanged _ db,
    ?_, ?_⟩
  · intro db cu tid now t hfind hperm
    simp [run_tx, delete_task_ok_shape db cu tid now t hfind hperm]
  · intro db cu aid now a hfind hperm
    simp [run_tx, delete_article_ok_shape db cu aid now a hfind hperm]

/-- C7, witness: a failing update of the missing task 99 leaves the store
exactly as it was, and a successful delete of task 10 commits the flag and
the DELETED record together. -/
theorem C7_witness :
    (run_tx (fun d => update_task d u_owner 99 none_form) db_fix).1 = db_fix ∧
    run_tx (fun d => delete_task d u_owner 10 50) db_fix =
      ({ set_task db_fix { t_fix with is_deleted := true, deleted_at := some 50 } with
         task_history :=
           [{ task_id := 10, user_id := 1, event := "TASK_DELETED", comment := none,
              changes := [("title", JVal.jstr "Fix pump"),
                          ("description", optJ none)] }] }, none) :=
  ⟨C7_theorem.2.1 db_fix u_owner 99 none_form (by decide),
   C7_theorem.2.2.2.2.2.2.2.2.2.1 db_fix u_owner 10 50 t_fix rfl (Or.inl rfl)⟩

theorem task_image_records_count (tid uid : Int) (images : List String) :
    ((task_image_records tid uid images).filter
      (fun x => x.event == "IMAGE_ADDED")).length = images.length := by
  unfold task_image_records
  induction images with
  | nil => rfl
  | cons a l ih => simpa using ih

theorem task_image_records_other (tid uid : Int) (images : List String)
    (ev : String) (h : (("IMAGE_ADDED" : String) == ev) = false) :
    (task_image_records tid uid images).filter (fun x => x.event == ev) = [] := by
  unfold task_image_records
  induction images with
  | nil => rfl
  | cons a l ih => simpa [h] using ih

/-- C8, counterexample: creating an article with one attached image stores
the file reference as an ArticleImage row but appends zero IMAGE_ADDED
history records, not one per file as the claim states. -/
theorem C8_counterexample :
    (ok_db (create_article db_fix u_owner "New" "Body" ["img.png"])).map
      (fun d => (count_article_event d "IMAGE_ADDED", d.article_images.length))
      = some (0, 1) := by
  decide

/-- C8, amended: task create and update append the n uploaded file
references to the task's image list and one IMAGE_ADDED history record per
file, in addition to the single TASK_CREATED / TASK_UPDATED record of the
same request; article create and update store the n references as
ArticleImage rows but append no IMAGE_ADDED history record at all (an
article update with images produces only its single UPDATE record). -/
theorem C8_theorem :
    (∀ (db : DB) (cu : User) (tid : Int) (f : UpdateTaskForm) (t : Task),
      db.tasks.find? (fun x => x.id == tid) = some t →
      f.assignee_id = none →
      f.images.isEmpty = false →
      (ok_db (update_task db cu tid f)).map
        (fun d => (count_task_event d "IMAGE_ADDED",
                   count_task_event d "TASK_UPDATED",
                   (apply_task_fields t f).image_paths))
        = some (count_task_event db "IMAGE_ADDED" + f.images.length,
                count_task_event db "TASK_UPDATED" + 1,
                t.image_paths ++ f.images)) ∧
    (∀ (db : DB) (cu : User) (f : CreateTaskForm) (u : User),
      verify_assignee db f.assignee_id = some u →
      (ok_db (create_task db cu f)).map
        (fun d => (count_task_event d "IMAGE_ADDED",
                   count_task_event d "TASK_CREATED",
                   d.tasks.getLast?.map Task.image_paths))
        = some (count_task_event db "IMAGE_ADDED" + f.images.length,
                count_task_event db "TASK_CREATED" + 1,
                some f.images)) ∧
    (∀ (db : DB) (cu : User) (title content : String) (images : List String),
      (ok_db (create_article db cu title content images)).map
        (fun d => (count_article_event d "IMAGE_ADDED",
                   count_article_event d "CREATE",
                   d.article_images))
        = some (count_article_event db "IMAGE_ADDED",
                count_article_event db "CREATE" + 1,
                db.article_images ++ images.map (fun fn =>
                  { article_id := fresh_article_id db, image_path := fn }))) ∧
    (∀ (db : DB) (cu : User) (aid : Int) (f : UpdateArticleForm) (a : Article),
      db.articles.find? (fun x => x.id == aid && x.is_deleted == false) = some a →
      (a.author_id = cu.user_id ∨ cu.role_id = ADMIN_ROLE_ID) →
      f.images.isEmpty = false →
      (ok_db (update_article db cu aid f)).map
        (fun d => (count_article_event d "IMAGE_ADDED",
                   count_article_event d "UPDATE",
                   d.article_images))
        = some (count_article_event db "IMAGE_ADDED",
                count_article_event db "UPDATE" + 1,
                db.article_images ++ f.images.map (fun fn =>
                  { article_id := a.id, image_path := fn }))) := by
  refine ⟨?_, ?_, ?_, ?_⟩
  · intro db cu tid f t hfind hassign himg
    rw [update_task_ok_shape db cu tid f t hfind hassign]
    have hch : ∀ p : List String, ¬ task_update_changes f p = [] := by
      intro p
      unfold task_update_changes
      cases f.title <;> cases f.description <;> cases f.assignee_id <;>
        cases f.due_date <;> cases f.status <;> cases f.priority <;> simp [himg]
    simp [ok_db, count_task_event, List.filter_append, hch,
      task_image_records_count, task_image_records_other,
      apply_task_fields_images, himg]
  · intro db cu f u hv
    rw [show create_task db cu f = wrap_err (create_task_body db cu f) from rfl, ok_db_wrap]
    unfold create_task_body
    rw [hv]
    simp [ok_db, count_task_event, List.filter_append,
      task_image_records_count, task_image_records_other, List.getLast?_concat]
  · intro db cu title content images
    rw [show create_article db cu title content images
        = wrap_err (create_article_body db cu title content images) from rfl, ok_db_wrap]
    unfold create_article_body
    simp [ok_db, count_article_event, List.filter_append]
  · intro db cu aid f a hfind hperm himg
    have hcond : (a.author_id != cu.user_id && cu.role_id != ADMIN_ROLE_ID) = false := by
      rcases hperm with h | h <;> simp [h]
    rw [show update_article db cu aid f = wrap_err (update_article_body db cu aid f) from rfl,
      ok_db_wrap]
    unfold update_article_body
    rw [hfind]
    simp [hcond, himg, ok_db, count_article_event, List.filter_append,
      (article_after_update_const f a).1]

/-- C8, witness: a task update attaching two files appends two IMAGE_ADDED
records plus one TASK_UPDATED record and extends the image list; an
article update attaching one file stores one ArticleImage row, no
IMAGE_ADDED record and one UPDATE record. -/
theorem C8_witness :
    (ok_db (update_task db_fix u_owner 10
        ⟨none, none, none, none, none, none, ["a.png", "b.png"]⟩)).map
      (fun d => (count_task_event d "IMAGE_ADDED",
                 count_task_event d "TASK_UPDATED",
                 (apply_task_fields t_fix
                   ⟨none, none, none, none, none, none, ["a.png", "b.png"]⟩).image_paths))
      = some (2, 1, ["a.png", "b.png"]) ∧
    (ok_db (update_article db_fix u_owner 5 ⟨none, none, ["c.png"]⟩)).map
      (fun d => (count_article_event d "IMAGE_ADDED",
                 count_article_event d "UPDATE",
                 d.article_images))
      = some (0, 1, [{ article_id := 5, image_path := "c.png" }]) := by
  constructor
  · have h := C8_theorem.1 db_fix u_owner 10
      ⟨none, none, none, none, none, none, ["a.png", "b.png"]⟩ t_fix rfl rfl rfl
    simpa using h
  · have h := C8_theorem.2.2.2 db_fix u_owner 5 ⟨none, none, ["c.png"]⟩ a_fix
      rfl (Or.inl rfl) rfl
    simpa using h

/-- C9: update_task fetches by id alone, so a soft-deleted task is found
and updated — the request succeeds, and with at least one supplied field
(and no images) the task's history grows by exactly one record — while
update_article filters out soft-deleted articles in its fetch and rejects
them as not found (raised as NotFound by the handler, surfaced through the
blanket wrapper). -/
theorem C9_theorem :
    (∀ (db : DB) (cu : User) (tid : Int) (f : UpdateTaskForm) (t : Task),
      db.tasks.find? (fun x => x.id == tid) = some t →
      t.is_deleted = true →
      f.assignee_id = none →
      is_ok (update_task db cu tid f) = true) ∧
    (∀ (db : DB) (cu : User) (tid : Int) (f : UpdateTaskForm) (t : Task),
      db.tasks.find? (fun x => x.id == tid) = some t →
      t.is_deleted = true →
      f.assignee_id = none →
      f.images = [] →
      (task_update_changes f (apply_task_fields t f).image_paths).isEmpty = false →
      (ok_db (update_task db cu tid f)).map (fun d => task_hist_count d tid)
        = some (task_hist_count db tid + 1)) ∧
    (∀ (db : DB) (cu : User) (aid : Int) (f : UpdateArticleForm),
      (∀ a ∈ db.articles, a.id = aid → a.is_deleted = true) →
      update_article_body db cu aid f = .error .notFound ∧
      update_article db cu aid f = .error (.internal .notFound)) := by
  refine ⟨?_, ?_, ?_⟩
  · intro db cu tid f t hfind hdel hassign
    rw [update_task_ok_shape db cu tid f t hfind hassign]
    rfl
  · intro db cu tid f t hfind hdel hassign himg hch
    rw [update_task_ok_shape db cu tid f t hfind hassign]
    have hid : t.id = tid := by simpa using List.find?_some hfind
    simp [ok_db, task_hist_count, List.filter_append, himg, hch,
      task_image_records, (apply_task_fields_const t f).1, hid]
  · intro db cu aid f hdel
    have hnone : db.articles.find? (fun x => x.id == aid && x.is_deleted == false) = none := by
      rw [List.find?_eq_none]
      intro x hx hpx
      simp at hpx
      rw [hdel x hx hpx.1] at hpx
      cases hpx.2
    have hbody : update_article_body db cu aid f = .error .notFound := by
      unfold update_article_body
      rw [hnone]
    refine ⟨hbody, ?_⟩
    rw [show update_article db cu aid f = wrap_err (update_article_body db cu aid f) from rfl,
      hbody]
    rfl

/-- C9, witness: task 11 is soft-deleted yet its update succeeds and
appends one history record; article 6 is soft-deleted and its update is
rejected as not found. -/
theorem C9_witness :
    is_ok (update_task db_fix u_owner 11 none_form) = true ∧
    (ok_db (update_task db_fix u_owner 11
        ⟨some "Back", none, none, none, none, none, []⟩)).map
      (fun d => task_hist_count d 11) = some 1 ∧
    update_article_body db_fix u_owner 6 ⟨some "Zzz", none, []⟩ = .error .notFound := by
  refine ⟨C9_theorem.1 db_fix u_owner 11 none_form t_del rfl rfl rfl, ?_, ?_⟩
  · have h := C9_theorem.2.1 db_fix u_owner 11
      ⟨some "Back", none, none, none, none, none, []⟩ t_del rfl rfl rfl rfl (by decide)
    simpa using h
  · exact (C9_theorem.2.2 db_fix u_owner 6 ⟨some "Zzz", none, []⟩ (by decide)).1

/-- C10: an authorized article update supplying only images appends exactly
one UPDATE history record whose old_title, new_title, old_content and
new_content are all null, while the uploaded files appear only as
ArticleImage rows. -/
theorem C10_theorem :
    ∀ (db : DB) (cu : User) (aid : Int) (imgs : List String) (a : Article),
      db.articles.find? (fun x => x.id == aid && x.is_deleted == false) = some a →
      (a.author_id = cu.user_id ∨ cu.role_id = ADMIN_ROLE_ID) →
      imgs.isEmpty = false →
      (ok_db (update_article db cu aid ⟨none, none, imgs⟩)).map
        (fun d => (d.article_history, d.article_images)) =
        some (db.article_history ++
          [{ article_id := a.id, user_id := cu.user_id, event := "UPDATE",
             old_title := none, new_title := none,
             old_content := none, new_content := none }],
          db.article_images ++ imgs.map (fun fn =>
            { article_id := a.id, image_path := fn })) := by
  intro db cu aid imgs a hfind hperm himg
  have hcond : (a.author_id != cu.user_id && cu.role_id != ADMIN_ROLE_ID) = false := by
    rcases hperm with h | h <;> simp [h]
  rw [show update_article db cu aid ⟨none, none, imgs⟩
      = wrap_err (update_article_body db cu aid ⟨none, none, imgs⟩) from rfl, ok_db_wrap]
  unfold update_article_body
  rw [hfind]
  simp [hcond, himg, ok_db, article_title_changed, article_content_changed,
    (article_after_update_const ⟨none, none, imgs⟩ a).1]

/-- C10, witness: an images-only update of article 5 by its author records
one all-null UPDATE entry and one ArticleImage row. -/
theorem C10_witness :
    (ok_db (update_article db_fix u_owner 5 ⟨none, none, ["x.png"]⟩)).map
      (fun d => (d.article_history, d.article_images)) =
      some ([{ article_id := 5, user_id := 1, event := "UPDATE",
               old_title := none, new_title := none,
               old_content := none, new_content := none }],
            [{ article_id := 5, image_path := "x.png" }]) := by
  have h := C10_theorem db_fix u_owner 5 ["x.png"] a_fix rfl (Or.inl rfl) rfl
  simpa using h

end FinAPIU
